import Mathlib

/-!
Verification development for the "sejf" safe-game core.

The embedding below translates the TypeScript sources:
* the snapshot data model (`types.ts`, current revision: languages, optional
  survival chance, the `destroyed` display state and the `explosionResult` tag);
* the event type, `spawnSafe` and the reducer `reduce` (`safeMachine.ts`,
  bundled in `src/src/timer.ts`);
* the dispatch loop of `main.ts` (queue drain);
* the persistence adapter (`persistence.ts`): versioned payload, migration
  table, load/save, modelled at the level of structured JSON values (the
  `JSON.stringify`/`JSON.parse` string layer of the browser is the platform
  boundary; storage holds the structured payload).

Naming notes: TypeScript's state `'open'` is `SafeState.opened` and the event
`'open'` is `SafeEvent.openEvent`, because `open` is a Lean keyword.  The
effects of the reducer (one draw of `Math.random()`, one fresh
`crypto.randomUUID()`) are injected through an `Env` record.
-/

/-- UI language, `Lang` in `types.ts`. -/
inductive Lang where
  | en
  | pl
  | it
  deriving DecidableEq

/-- Model of `SafeContent` from `types.ts`: free text plus an optional image data URL. -/
structure SafeContent where
  text : String
  imageDataUrl : Option String
  deriving DecidableEq

/-- Model of `SafeSettings` from `types.ts` (current revision, with the optional
`survivalChance` percentage). -/
structure SafeSettings where
  language : Lang
  survivalEnabled : Bool
  survivalChance : Option ℕ
  autodestructMinutes : Option ℕ
  pinAttemptsLimit : Option ℕ
  deriving DecidableEq

/-- Model of `SafeState` from `types.ts`: `'open' | 'closed' | 'destroyed'`
(`opened` stands for the source's `'open'`). -/
inductive SafeState where
  | opened
  | closed
  | destroyed
  deriving DecidableEq

/-- The `explosionResult` tag values `'survived' | 'destroyed'`. -/
inductive ExplosionResult where
  | survived
  | destroyed
  deriving DecidableEq

/-- Model of `SafeRuntime` from `types.ts`.  Optional fields (`?` in TypeScript,
holding `undefined` when absent) are `Option`s.  Timestamps are epoch
milliseconds, modelled as integers. -/
structure SafeRuntime where
  state : SafeState
  pinHash : Option String
  attemptsMade : ℕ
  closedAt : Option ℤ
  destructAt : Option ℤ
  explosionResult : Option ExplosionResult
  deriving DecidableEq

/-- Model of `SafeSnapshot` from `types.ts`: the aggregate root. -/
structure SafeSnapshot where
  id : String
  content : SafeContent
  settings : SafeSettings
  runtime : SafeRuntime
  deriving DecidableEq

/-- Model of `SafeEvent` from `safeMachine.ts` (`openEvent` stands for the source's
`'open'` event). -/
inductive SafeEvent where
  | openEvent
  | close (pinHash : String) (now : ℤ)
  | wrongPin
  | tick (now : ℤ)
  | explode
  | survive
  deriving DecidableEq

/-- The injected effects of one reducer invocation: the single `Math.random()`
draw used by the survival roll, and the `crypto.randomUUID()` value used by
`spawnSafe`. -/
structure Env where
  random : ℚ
  freshId : String

/-- Translation of `spawnSafe` from `safeMachine.ts`: a fresh open safe with empty content and
default settings; all optional fields are absent. -/
def spawnSafe (id : String) : SafeSnapshot :=
  { id := id
    content := { text := "", imageDataUrl := none }
    settings :=
      { language := Lang.en
        survivalEnabled := false
        survivalChance := none
        autodestructMinutes := none
        pinAttemptsLimit := none }
    runtime :=
      { state := SafeState.opened
        pinHash := none
        attemptsMade := 0
        closedAt := none
        destructAt := none
        explosionResult := none } }

/-- Translation of `reduce` from `safeMachine.ts`: pure transition function mapping a snapshot
and an event to the next snapshot and the list of follow-up events.  Each case
is a direct translation of the corresponding `switch` case; creating a fresh
runtime object in the source (as the `open` and `close` cases do) leaves the
omitted optional fields absent, while a spread (`wrongPin`, `survive`) keeps
them.  The `explode` case guards on `survivalEnabled && random() < 0.1`. -/
def reduce (env : Env) (snapshot : SafeSnapshot) (event : SafeEvent) :
    SafeSnapshot × List SafeEvent :=
  match event with
  | SafeEvent.openEvent =>
    if snapshot.runtime.state ≠ SafeState.closed then (snapshot, [])
    else
      ({ snapshot with
          runtime :=
            { state := SafeState.opened
              pinHash := none
              attemptsMade := 0
              closedAt := none
              destructAt := none
              explosionResult := none } },
        [])
  | SafeEvent.close pinHash now =>
    if snapshot.runtime.state ≠ SafeState.opened then (snapshot, [])
    else
      let closedAt := now
      let destructAt :=
        match snapshot.settings.autodestructMinutes with
        | some minutes => some (closedAt + (minutes : ℤ) * 60 * 1000)
        | none => none
      ({ snapshot with
          runtime :=
            { state := SafeState.closed
              pinHash := some pinHash
              attemptsMade := 0
              closedAt := some closedAt
              destructAt := destructAt
              explosionResult := none } },
        [])
  | SafeEvent.wrongPin =>
    if snapshot.runtime.state ≠ SafeState.closed then (snapshot, [])
    else
      let attempts := snapshot.runtime.attemptsMade + 1
      let updated :=
        { snapshot with runtime := { snapshot.runtime with attemptsMade := attempts } }
      match snapshot.settings.pinAttemptsLimit with
      | some limit =>
        if limit ≤ attempts then (updated, [SafeEvent.explode]) else (updated, [])
      | none => (updated, [])
  | SafeEvent.tick now =>
    if snapshot.runtime.state ≠ SafeState.closed then (snapshot, [])
    else
      match snapshot.runtime.destructAt with
      | some destructAt =>
        if destructAt ≤ now then (snapshot, [SafeEvent.explode]) else (snapshot, [])
      | none => (snapshot, [])
  | SafeEvent.explode =>
    if snapshot.settings.survivalEnabled = true ∧ env.random < 1 / 10 then
      (snapshot, [SafeEvent.survive])
    else (spawnSafe env.freshId, [])
  | SafeEvent.survive =>
    if snapshot.runtime.state ≠ SafeState.closed then (snapshot, [])
    else
      ({ snapshot with
          runtime :=
            { snapshot.runtime with attemptsMade := 0, destructAt := none } },
        [])

/-- The dispatch loop of `main.ts`, fuel-indexed: process the queue front,
append the emitted events, recurse.  `none` means the fuel bound was hit; the
source loop is unbounded, and the cascade-bound theorem below shows that fuel 3
always suffices for a singleton initial queue, so `drain env 3` coincides with
the source loop on the queues it is used with. -/
def drain (env : Env) : ℕ → SafeSnapshot → List SafeEvent → Option SafeSnapshot
  | _, s, [] => some s
  | 0, _, _ :: _ => none
  | fuel + 1, s, e :: rest =>
    let r := reduce env s e
    drain env fuel r.1 (rest ++ r.2)

/-- Translation of `dispatch` from `main.ts`: feed one external event and drain the whole
emitted-event cascade before returning the settled snapshot. -/
def dispatch (env : Env) (s : SafeSnapshot) (e : SafeEvent) : Option SafeSnapshot :=
  drain env 3 s [e]

/-- The settings form of `main.ts` validates its inputs before writing them
into the snapshot: minutes and attempt limit are integers in [1, 999], the
survival percentage is an integer in [1, 100].  The reducer itself performs no
range re-validation. -/
def ValidSettings (st : SafeSettings) : Prop :=
  (∀ n, st.autodestructMinutes = some n → 1 ≤ n ∧ n ≤ 999) ∧
  (∀ n, st.pinAttemptsLimit = some n → 1 ≤ n ∧ n ≤ 999) ∧
  (∀ n, st.survivalChance = some n → 1 ≤ n ∧ n ≤ 100)

/-- Snapshots reachable in the running system from a freshly spawned safe:
each step is either a settled `dispatch` of an event (with its own effect
environment), or one of the in-place edits the UI performs while the safe is
open (content edits; validated settings edits). -/
inductive Reachable : SafeSnapshot → Prop where
  | spawn (id : String) : Reachable (spawnSafe id)
  | step (env : Env) (s s' : SafeSnapshot) (e : SafeEvent) :
      Reachable s → dispatch env s e = some s' → Reachable s'
  | editContent (s : SafeSnapshot) (c : SafeContent) :
      Reachable s → s.runtime.state = SafeState.opened →
      Reachable { s with content := c }
  | editSettings (s : SafeSnapshot) (st : SafeSettings) :
      Reachable s → s.runtime.state = SafeState.opened → ValidSettings st →
      Reachable { s with settings := st }

/-- Events of the current safe machine, including `startNew` (dispatched by the
destroyed view of `main.ts`). -/
inductive FullEvent where
  | base (e : SafeEvent)
  | startNew
  deriving DecidableEq

/-- Modelled from the spec: the revision of `safeMachine.ts` that handles the
`startNew` event is not among the retrieved sources — only its caller (the
destroyed view in `main.ts` dispatches `{ type: 'startNew' }`) and the
`SafeState` declaration including `'destroyed'` are.  Per the spec's transition
table, `startNew` with `state == destroyed` replaces the snapshot with a
freshly spawned safe; any other event is handled by `reduce`, and unsupported
combinations are no-ops. -/
def reduceFull (env : Env) (snapshot : SafeSnapshot) (event : FullEvent) :
    SafeSnapshot × List SafeEvent :=
  match event with
  | FullEvent.base e => reduce env snapshot e
  | FullEvent.startNew =>
    if snapshot.runtime.state = SafeState.destroyed then (spawnSafe env.freshId, [])
    else (snapshot, [])

/-- Structured JSON values, the image of `JSON.parse` on the payloads the
persistence adapter reads and writes (objects with string keys; string, integer
and boolean leaves).  `JSON.stringify` drops object fields holding `undefined`,
so absent optional fields are modelled by omitting the key. -/
inductive Json where
  | str (s : String)
  | num (n : ℤ)
  | bool (b : Bool)
  | obj (fields : List (String × Json))

/-- Field access on a parsed object (`parsed.v`, `parsed.data`, property reads
of the cast snapshot). -/
def lookupField : List (String × Json) → String → Option Json
  | [], _ => none
  | (k, v) :: rest, key => if k = key then some v else lookupField rest key

/-- Field access on a structured value; non-objects have no fields. -/
def Json.get (j : Json) (key : String) : Option Json :=
  match j with
  | Json.obj fields => lookupField fields key
  | _ => none

/-- Helper for encoding an optional field: present fields carry their value,
absent ones are omitted (as `JSON.stringify` does for `undefined`). -/
def optField (key : String) : Option Json → List (String × Json)
  | some v => [(key, v)]
  | none => []

/-- Encoding of `Lang` as its JSON string. -/
def encodeLang : Lang → Json
  | Lang.en => Json.str "en"
  | Lang.pl => Json.str "pl"
  | Lang.it => Json.str "it"

/-- Reading a `Lang` back from its JSON string. -/
def decodeLang : Json → Option Lang
  | Json.str "en" => some Lang.en
  | Json.str "pl" => some Lang.pl
  | Json.str "it" => some Lang.it
  | _ => none

/-- Encoding of `SafeState` as its JSON string. -/
def encodeState : SafeState → Json
  | SafeState.opened => Json.str "open"
  | SafeState.closed => Json.str "closed"
  | SafeState.destroyed => Json.str "destroyed"

/-- Reading a `SafeState` back from its JSON string. -/
def decodeState : Json → Option SafeState
  | Json.str "open" => some SafeState.opened
  | Json.str "closed" => some SafeState.closed
  | Json.str "destroyed" => some SafeState.destroyed
  | _ => none

/-- Encoding of the `explosionResult` tag as its JSON string. -/
def encodeExplosionResult : ExplosionResult → Json
  | ExplosionResult.survived => Json.str "survived"
  | ExplosionResult.destroyed => Json.str "destroyed"

/-- Reading an `explosionResult` tag back from its JSON string. -/
def decodeExplosionResult : Json → Option ExplosionResult
  | Json.str "survived" => some ExplosionResult.survived
  | Json.str "destroyed" => some ExplosionResult.destroyed
  | _ => none

/-- Encoding of `SafeContent` as a JSON object. -/
def encodeContent (c : SafeContent) : Json :=
  Json.obj ([("text", Json.str c.text)] ++ optField "imageDataUrl" (c.imageDataUrl.map Json.str))

/-- Reading a `SafeContent` back from a JSON object. -/
def decodeContent (j : Json) : Option SafeContent := do
  let text ← match j.get "text" with
    | some (Json.str s) => some s
    | _ => none
  let imageDataUrl ← match j.get "imageDataUrl" with
    | none => some none
    | some (Json.str s) => some (some s)
    | some _ => none
  pure { text := text, imageDataUrl := imageDataUrl }

/-- Encoding of `SafeSettings` as a JSON object; absent optionals are omitted. -/
def encodeSettings (st : SafeSettings) : Json :=
  Json.obj
    ([("language", encodeLang st.language), ("survivalEnabled", Json.bool st.survivalEnabled)] ++
      optField "survivalChance" (st.survivalChance.map fun n => Json.num (n : ℤ)) ++
      optField "autodestructMinutes" (st.autodestructMinutes.map fun n => Json.num (n : ℤ)) ++
      optField "pinAttemptsLimit" (st.pinAttemptsLimit.map fun n => Json.num (n : ℤ)))

/-- Reading an optional natural-number field; the source performs no validation
(the parsed object is cast), so a stored number is taken as-is. -/
def getOptNat (j : Json) (key : String) : Option (Option ℕ) :=
  match j.get key with
  | none => some none
  | some (Json.num n) => some (some n.toNat)
  | some _ => none

/-- Reading an optional integer (timestamp) field. -/
def getOptInt (j : Json) (key : String) : Option (Option ℤ) :=
  match j.get key with
  | none => some none
  | some (Json.num n) => some (some n)
  | some _ => none

/-- Reading an optional string field. -/
def getOptStr (j : Json) (key : String) : Option (Option String) :=
  match j.get key with
  | none => some none
  | some (Json.str s) => some (some s)
  | some _ => none

/-- Reading a `SafeSettings` back from a JSON object. -/
def decodeSettings (j : Json) : Option SafeSettings := do
  let language ← match j.get "language" with
    | some v => decodeLang v
    | none => none
  let survivalEnabled ← match j.get "survivalEnabled" with
    | some (Json.bool b) => some b
    | _ => none
  let survivalChance ← getOptNat j "survivalChance"
  let autodestructMinutes ← getOptNat j "autodestructMinutes"
  let pinAttemptsLimit ← getOptNat j "pinAttemptsLimit"
  pure
    { language := language
      survivalEnabled := survivalEnabled
      survivalChance := survivalChance
      autodestructMinutes := autodestructMinutes
      pinAttemptsLimit := pinAttemptsLimit }

/-- Encoding of `SafeRuntime` as a JSON object; absent optionals are omitted. -/
def encodeRuntime (r : SafeRuntime) : Json :=
  Json.obj
    ([("state", encodeState r.state)] ++
      optField "pinHash" (r.pinHash.map Json.str) ++
      [("attemptsMade", Json.num (r.attemptsMade : ℤ))] ++
      optField "closedAt" (r.closedAt.map Json.num) ++
      optField "destructAt" (r.destructAt.map Json.num) ++
      optField "explosionResult" (r.explosionResult.map encodeExplosionResult))

/-- Reading a `SafeRuntime` back from a JSON object. -/
def decodeRuntime (j : Json) : Option SafeRuntime := do
  let state ← match j.get "state" with
    | some v => decodeState v
    | none => none
  let pinHash ← getOptStr j "pinHash"
  let attemptsMade ← match j.get "attemptsMade" with
    | some (Json.num n) => some n.toNat
    | _ => none
  let closedAt ← getOptInt j "closedAt"
  let destructAt ← getOptInt j "destructAt"
  let explosionResult ← match j.get "explosionResult" with
    | none => some none
    | some v => (decodeExplosionResult v).map some
  pure
    { state := state
      pinHash := pinHash
      attemptsMade := attemptsMade
      closedAt := closedAt
      destructAt := destructAt
      explosionResult := explosionResult }

/-- Encoding of a whole `SafeSnapshot` as a JSON object. -/
def encodeSnapshot (s : SafeSnapshot) : Json :=
  Json.obj
    [("id", Json.str s.id), ("content", encodeContent s.content),
      ("settings", encodeSettings s.settings), ("runtime", encodeRuntime s.runtime)]

/-- Reading a `SafeSnapshot` back from a JSON object (the materialisation of
the source's `data as SafeSnapshot` cast on well-shaped payloads). -/
def decodeSnapshot (j : Json) : Option SafeSnapshot := do
  let id ← match j.get "id" with
    | some (Json.str s) => some s
    | _ => none
  let content ← match j.get "content" with
    | some v => decodeContent v
    | none => none
  let settings ← match j.get "settings" with
    | some v => decodeSettings v
    | none => none
  let runtime ← match j.get "runtime" with
    | some v => decodeRuntime v
    | none => none
  pure { id := id, content := content, settings := settings, runtime := runtime }

/-- Constant `SCHEMA_VERSION` from `persistence.ts`. -/
def SCHEMA_VERSION : ℤ := 1

/-- The migration table of `persistence.ts`: only version 0 has a migration,
and it is the identity. -/
def migrations (v : ℤ) : Option (Json → Json) :=
  if v = 0 then some (fun d => d) else none

/-- The `while (version < SCHEMA_VERSION)` loop of `loadSnapshot`, fuel-indexed
(`(SCHEMA_VERSION - version).toNat` steps always suffice, since each iteration
increments the version by one): apply the stored version's migration if it
exists, otherwise fail. -/
def migrateSteps : ℕ → ℤ → Json → Option Json
  | 0, v, d => if SCHEMA_VERSION ≤ v then some d else none
  | fuel + 1, v, d =>
    if SCHEMA_VERSION ≤ v then some d
    else
      match migrations v with
      | none => none
      | some m => migrateSteps fuel (v + 1) (m d)

/-- Translation of `saveSnapshot` from `persistence.ts`: wrap the snapshot in the versioned
payload `{ v: SCHEMA_VERSION, data: snapshot }` and store it under the single
well-known key. -/
def saveSnapshot (snapshot : SafeSnapshot) : Json :=
  Json.obj [("v", Json.num SCHEMA_VERSION), ("data", encodeSnapshot snapshot)]

/-- Translation of `loadSnapshot` from `persistence.ts`: read the stored payload (absent or
unparseable storage is `none`); take the version tag and data from a
`{ v, data }` wrapper when present (a numeric `v` alongside a `data` key),
otherwise treat the whole payload as version-0 data; migrate up to the current
schema version, failing when a migration step is missing; materialise the
result as a snapshot. -/
def loadSnapshot (stored : Option Json) : Option SafeSnapshot :=
  match stored with
  | none => none
  | some parsed =>
    let vd : ℤ × Json :=
      match parsed.get "v", parsed.get "data" with
      | some (Json.num v), some d => (v, d)
      | _, _ => (0, parsed)
    match migrateSteps (SCHEMA_VERSION - vd.1).toNat vd.1 vd.2 with
    | none => none
    | some d => decodeSnapshot d

/-- A closed snapshot with the survival option enabled and an explicit
survival chance of 100 percent, used to exercise the explosion path. -/
def survivalInput : SafeSnapshot :=
  { id := "sfe"
    content := { text := "secret", imageDataUrl := none }
    settings :=
      { language := Lang.en
        survivalEnabled := true
        survivalChance := some 100
        autodestructMinutes := none
        pinAttemptsLimit := none }
    runtime :=
      { state := SafeState.closed
        pinHash := some "hash"
        attemptsMade := 0
        closedAt := some 0
        destructAt := none
        explosionResult := none } }

/-- A plain closed snapshot used to exercise the no-op guards. -/
def c8ClosedInput : SafeSnapshot :=
  { id := "c8"
    content := { text := "", imageDataUrl := none }
    settings :=
      { language := Lang.en
        survivalEnabled := false
        survivalChance := none
        autodestructMinutes := none
        pinAttemptsLimit := none }
    runtime :=
      { state := SafeState.closed
        pinHash := some "h"
        attemptsMade := 0
        closedAt := some 0
        destructAt := none
        explosionResult := none } }

/-- A snapshot in the destroyed display state, used to exercise `startNew`. -/
def destroyedInput : SafeSnapshot :=
  { id := "d"
    content := { text := "gone", imageDataUrl := none }
    settings :=
      { language := Lang.pl
        survivalEnabled := true
        survivalChance := some 25
        autodestructMinutes := none
        pinAttemptsLimit := some 3 }
    runtime :=
      { state := SafeState.destroyed
        pinHash := none
        attemptsMade := 3
        closedAt := some 7
        destructAt := none
        explosionResult := some ExplosionResult.destroyed } }

/-- A closed snapshot with a wrong-PIN attempt limit of 2 and no attempts
made yet. -/
def limitedInput : SafeSnapshot :=
  { id := "lim"
    content := { text := "x", imageDataUrl := none }
    settings :=
      { language := Lang.it
        survivalEnabled := false
        survivalChance := none
        autodestructMinutes := none
        pinAttemptsLimit := some 2 }
    runtime :=
      { state := SafeState.closed
        pinHash := some "h"
        attemptsMade := 0
        closedAt := some 0
        destructAt := none
        explosionResult := none } }

/-- An open snapshot with a one-minute autodestruct timer configured. -/
def timedOpenInput : SafeSnapshot :=
  { id := "tmr"
    content := { text := "t", imageDataUrl := none }
    settings :=
      { language := Lang.en
        survivalEnabled := false
        survivalChance := none
        autodestructMinutes := some 1
        pinAttemptsLimit := none }
    runtime :=
      { state := SafeState.opened
        pinHash := none
        attemptsMade := 0
        closedAt := none
        destructAt := none
        explosionResult := none } }

/-- The snapshot after `k` successive `wrongPin` dispatches (taking the next
snapshot of each reducer call; emissions are inspected separately). -/
def afterWrong (env : Env) (s : SafeSnapshot) : ℕ → SafeSnapshot
  | 0 => s
  | k + 1 => (reduce env (afterWrong env s k) SafeEvent.wrongPin).1

/-- Any attempt limit stored in the settings is at least 1 (the settings form
only accepts limits in [1, 999]). -/
def SettingsOK (st : SafeSettings) : Prop :=
  ∀ N, st.pinAttemptsLimit = some N → 1 ≤ N

/-- The settled-state invariant: the stored attempt limit is positive, and a
closed snapshot always has strictly fewer attempts made than the limit. -/
def SafeInv (s : SafeSnapshot) : Prop :=
  SettingsOK s.settings ∧
    (s.runtime.state = SafeState.closed →
      ∀ N, s.settings.pinAttemptsLimit = some N → s.runtime.attemptsMade < N)

/-- Settings used by the reachability witness: attempt limit 2, everything
else off. -/
def c7WitnessSettings : SafeSettings :=
  { language := Lang.en
    survivalEnabled := false
    survivalChance := none
    autodestructMinutes := none
    pinAttemptsLimit := some 2 }

/-- The snapshot reached by spawning, setting an attempt limit of 2 and
closing with PIN hash "h" at time 0. -/
def c7WitnessSnapshot : SafeSnapshot :=
  { id := "w"
    content := { text := "", imageDataUrl := none }
    settings := c7WitnessSettings
    runtime :=
      { state := SafeState.closed
        pinHash := some "h"
        attemptsMade := 0
        closedAt := some 0
        destructAt := none
        explosionResult := none } }

lemma drain_nil (env : Env) (f : ℕ) (s : SafeSnapshot) : drain env f s [] = some s := by
  cases f <;> rfl

lemma drain_succ (env : Env) (f : ℕ) (s : SafeSnapshot) (e : SafeEvent)
    (rest : List SafeEvent) :
    drain env (f + 1) s (e :: rest) =
      drain env f (reduce env s e).1 (rest ++ (reduce env s e).2) := rfl

lemma reduce_openEvent_emits (env : Env) (s : SafeSnapshot) :
    (reduce env s SafeEvent.openEvent).2 = [] := by
  simp only [reduce]
  split <;> rfl

lemma reduce_close_emits (env : Env) (s : SafeSnapshot) (p : String) (now : ℤ) :
    (reduce env s (SafeEvent.close p now)).2 = [] := by
  simp only [reduce]
  split <;> rfl

lemma reduce_survive_emits (env : Env) (s : SafeSnapshot) :
    (reduce env s SafeEvent.survive).2 = [] := by
  simp only [reduce]
  split <;> rfl

lemma reduce_explode_emits (env : Env) (s : SafeSnapshot) :
    (reduce env s SafeEvent.explode).2 = [] ∨
      (reduce env s SafeEvent.explode).2 = [SafeEvent.survive] := by
  simp only [reduce]
  split
  · exact Or.inr rfl
  · exact Or.inl rfl

lemma reduce_wrongPin_emits_shape (env : Env) (s : SafeSnapshot) :
    (reduce env s SafeEvent.wrongPin).2 = [] ∨
      (reduce env s SafeEvent.wrongPin).2 = [SafeEvent.explode] := by
  simp only [reduce]
  split
  · exact Or.inl rfl
  · split
    · split
      · exact Or.inr rfl
      · exact Or.inl rfl
    · exact Or.inl rfl

lemma reduce_tick_emits_shape (env : Env) (s : SafeSnapshot) (now : ℤ) :
    (reduce env s (SafeEvent.tick now)).2 = [] ∨
      (reduce env s (SafeEvent.tick now)).2 = [SafeEvent.explode] := by
  simp only [reduce]
  split
  · exact Or.inl rfl
  · split
    · split
      · exact Or.inr rfl
      · exact Or.inl rfl
    · exact Or.inl rfl

lemma drain_two_explode (env : Env) (s : SafeSnapshot) :
    (drain env 2 s [SafeEvent.explode]).isSome = true := by
  rw [drain_succ]
  rcases reduce_explode_emits env s with h | h <;> rw [h]
  · rw [List.nil_append, drain_nil]; rfl
  · rw [List.nil_append, drain_succ, reduce_survive_emits, List.nil_append, drain_nil]; rfl

/-- C10: each reducer invocation emits at most one follow-up event, the chain
shapes are bounded (`survive` emits nothing; `explode` emits nothing or one
`survive`), and draining a single external event settles within three reducer
invocations for every snapshot and randomness environment. -/
theorem c10_cascade_bounded :
    (∀ env s, (reduce env s SafeEvent.survive).2 = []) ∧
    (∀ env s, (reduce env s SafeEvent.explode).2 = [] ∨
      (reduce env s SafeEvent.explode).2 = [SafeEvent.survive]) ∧
    (∀ env s e, ((reduce env s e).2).length ≤ 1) ∧
    (∀ env s e, (drain env 3 s [e]).isSome = true) := by
  refine ⟨reduce_survive_emits, reduce_explode_emits, ?_, ?_⟩
  · intro env s e
    cases e with
    | openEvent => rw [reduce_openEvent_emits]; simp
    | close p now => rw [reduce_close_emits]; simp
    | wrongPin => rcases reduce_wrongPin_emits_shape env s with h | h <;> rw [h] <;> simp
    | tick now => rcases reduce_tick_emits_shape env s now with h | h <;> rw [h] <;> simp
    | explode => rcases reduce_explode_emits env s with h | h <;> rw [h] <;> simp
    | survive => rw [reduce_survive_emits]; simp
  · intro env s e
    cases e with
    | openEvent =>
      rw [drain_succ, reduce_openEvent_emits, List.nil_append, drain_nil]; rfl
    | close p now =>
      rw [drain_succ, reduce_close_emits, List.nil_append, drain_nil]; rfl
    | wrongPin =>
      rw [drain_succ]
      rcases reduce_wrongPin_emits_shape env s with h | h <;> rw [h, List.nil_append]
      · rw [drain_nil]; rfl
      · exact drain_two_explode env _
    | tick now =>
      rw [drain_succ]
      rcases reduce_tick_emits_shape env s now with h | h <;> rw [h, List.nil_append]
      · rw [drain_nil]; rfl
      · exact drain_two_explode env _
    | explode =>
      rw [drain_succ]
      rcases reduce_explode_emits env s with h | h <;> rw [h, List.nil_append]
      · rw [drain_nil]; rfl
      · rw [drain_succ, reduce_survive_emits, List.nil_append, drain_nil]; rfl
    | survive =>
      rw [drain_succ, reduce_survive_emits, List.nil_append, drain_nil]; rfl

/-- C8: `reduce` is a total function (it returns a next snapshot and an
emitted-event list for every snapshot/event combination, never throwing), and
events whose state precondition fails are no-ops returning the snapshot
unchanged with no emitted events: `open` outside the closed state, `close`
outside the open state, and `wrongPin`/`tick`/`survive` outside the closed
state. -/
theorem c8_unmet_preconditions_are_noops (env : Env) (s : SafeSnapshot) :
    (s.runtime.state ≠ SafeState.closed →
      reduce env s SafeEvent.openEvent = (s, [])) ∧
    (s.runtime.state ≠ SafeState.opened →
      ∀ p now, reduce env s (SafeEvent.close p now) = (s, [])) ∧
    (s.runtime.state ≠ SafeState.closed →
      reduce env s SafeEvent.wrongPin = (s, []) ∧
      (∀ now, reduce env s (SafeEvent.tick now) = (s, [])) ∧
      reduce env s SafeEvent.survive = (s, [])) := by
  refine ⟨fun h => ?_, fun h p now => ?_, fun h => ⟨?_, fun now => ?_, ?_⟩⟩ <;>
    simp [reduce, h]

/-- Concrete instantiation of the no-op guards: on a freshly spawned (open)
safe, `open`, `wrongPin`, `tick` and `survive` are no-ops, and on a closed
safe, `close` is a no-op. -/
theorem c8_witness :
    reduce { random := 0, freshId := "w" } (spawnSafe "a") SafeEvent.openEvent =
      (spawnSafe "a", []) ∧
    reduce { random := 0, freshId := "w" } (spawnSafe "a") SafeEvent.wrongPin =
      (spawnSafe "a", []) ∧
    reduce { random := 0, freshId := "w" } (spawnSafe "a") (SafeEvent.tick 5) =
      (spawnSafe "a", []) ∧
    reduce { random := 0, freshId := "w" } (spawnSafe "a") SafeEvent.survive =
      (spawnSafe "a", []) ∧
    reduce { random := 0, freshId := "w" } c8ClosedInput (SafeEvent.close "p" 3) =
      (c8ClosedInput, []) :=
  ⟨(c8_unmet_preconditions_are_noops _ _).1 (by decide),
    ((c8_unmet_preconditions_are_noops _ _).2.2 (by decide)).1,
    ((c8_unmet_preconditions_are_noops _ _).2.2 (by decide)).2.1 5,
    ((c8_unmet_preconditions_are_noops _ _).2.2 (by decide)).2.2,
    (c8_unmet_preconditions_are_noops _ _).2.1 (by decide) "p" 3⟩

/-- C6: when `survivalEnabled` is false, `explode` never emits `survive`,
whatever the randomness draw and whatever `survivalChance` holds; the reducer
instead returns a freshly spawned safe — empty content, default settings,
state open, zero attempts, and no `pinHash`, `closedAt` or `destructAt`. -/
theorem c6_no_survival_when_disabled (env : Env) (s : SafeSnapshot)
    (h : s.settings.survivalEnabled = false) :
    reduce env s SafeEvent.explode = (spawnSafe env.freshId, []) ∧
    (spawnSafe env.freshId).content.text = "" ∧
    (spawnSafe env.freshId).content.imageDataUrl = none ∧
    (spawnSafe env.freshId).settings =
      { language := Lang.en
        survivalEnabled := false
        survivalChance := none
        autodestructMinutes := none
        pinAttemptsLimit := none } ∧
    (spawnSafe env.freshId).runtime.state = SafeState.opened ∧
    (spawnSafe env.freshId).runtime.attemptsMade = 0 ∧
    (spawnSafe env.freshId).runtime.pinHash = none ∧
    (spawnSafe env.freshId).runtime.closedAt = none ∧
    (spawnSafe env.freshId).runtime.destructAt = none := by
  refine ⟨?_, rfl, rfl, rfl, rfl, rfl, rfl, rfl, rfl⟩
  simp [reduce, h]

/-- Concrete instantiation of C6: exploding a closed safe with the survival
option off and a randomness draw of 0 yields a fresh spawn. -/
theorem c6_witness :
    reduce { random := 0, freshId := "f" } c8ClosedInput SafeEvent.explode =
      (spawnSafe "f", []) :=
  (c6_no_survival_when_disabled { random := 0, freshId := "f" } c8ClosedInput rfl).1

/-- C1 counterexample: the claim predicts that with `survivalEnabled = true`
and `survivalChance = 100` a draw of 1/2 survives (1/2 < 100/100), but the
reducer emits no `survive` event there: its roll compares the draw against the
fixed constant 0.1 and ignores `survivalChance`. -/
theorem c1_counterexample :
    survivalInput.settings.survivalEnabled = true ∧
    survivalInput.settings.survivalChance = some 100 ∧
    (1 : ℚ) / 2 < (100 : ℚ) / 100 ∧
    (reduce { random := 1 / 2, freshId := "f" } survivalInput SafeEvent.explode).2 = [] := by
  refine ⟨rfl, rfl, by norm_num, ?_⟩
  simp [reduce, survivalInput]
  norm_num

/-- C1 (amended): `reduce` on `explode` rolls survival only when
`survivalEnabled` is true, and the roll succeeds — emitting `survive` —
exactly when the injected draw is below the fixed probability 1/10;
`survivalChance` plays no part in the outcome. -/
theorem c1_survival_roll_fixed_ten_percent (env : Env) (s : SafeSnapshot) :
    (reduce env s SafeEvent.explode).2 = [SafeEvent.survive] ↔
      s.settings.survivalEnabled = true ∧ env.random < 1 / 10 := by
  simp only [reduce]
  split
  · next hc => exact iff_of_true rfl hc
  · next hc => exact iff_of_false (fun h => List.noConfusion h) hc

/-- C2 at the failing input: on a closed snapshot with the survival option on
and `survivalChance = 100`, a draw of 0 makes the survival roll succeed, the
reducer emits `survive`, and processing the `survive` event keeps the snapshot
closed with identical content and settings, zero attempts and no `destructAt`
— but leaves `runtime.explosionResult` absent instead of setting it to
`survived` (no case of the reducer ever writes that field, so the claimed tag
never appears). -/
theorem c2_survive_leaves_explosionResult_unset :
    reduce { random := 0, freshId := "f" } survivalInput SafeEvent.explode =
      (survivalInput, [SafeEvent.survive]) ∧
    (reduce { random := 0, freshId := "f" } survivalInput SafeEvent.survive).1.runtime.state =
      SafeState.closed ∧
    (reduce { random := 0, freshId := "f" } survivalInput SafeEvent.survive).1.content =
      survivalInput.content ∧
    (reduce { random := 0, freshId := "f" } survivalInput SafeEvent.survive).1.settings =
      survivalInput.settings ∧
    (reduce { random := 0, freshId := "f" } survivalInput SafeEvent.survive).1.runtime.attemptsMade =
      0 ∧
    (reduce { random := 0, freshId := "f" } survivalInput SafeEvent.survive).1.runtime.destructAt =
      none ∧
    (reduce { random := 0, freshId := "f" } survivalInput SafeEvent.survive).1.runtime.explosionResult =
      none := by
  refine ⟨?_, ?_, ?_, ?_, ?_, ?_, ?_⟩ <;> norm_num [reduce, survivalInput]

/-- C3: per the spec-modelled current safe machine, dispatching `startNew` on
a snapshot whose display state is `destroyed` replaces it with a freshly
spawned safe (and the event set `FullEvent` includes `startNew`, the state set
`SafeState` includes `destroyed`). -/
theorem c3_startNew_respawns (env : Env) (s : SafeSnapshot)
    (h : s.runtime.state = SafeState.destroyed) :
    reduceFull env s FullEvent.startNew = (spawnSafe env.freshId, []) := by
  simp [reduceFull, h]

/-- Concrete instantiation of C3: `startNew` on a destroyed snapshot yields
the fresh spawn. -/
theorem c3_witness :
    reduceFull { random := 0, freshId := "n" } destroyedInput FullEvent.startNew =
      (spawnSafe "n", []) :=
  c3_startNew_respawns { random := 0, freshId := "n" } destroyedInput rfl

lemma reduce_wrongPin_fst (env : Env) (s : SafeSnapshot)
    (h : s.runtime.state = SafeState.closed) :
    (reduce env s SafeEvent.wrongPin).1 =
      { s with runtime := { s.runtime with attemptsMade := s.runtime.attemptsMade + 1 } } := by
  simp only [reduce]
  rw [if_neg (by simp [h])]
  cases hl : s.settings.pinAttemptsLimit with
  | none => rfl
  | some limit =>
    dsimp only
    split <;> rfl

lemma reduce_wrongPin_snd (env : Env) (s : SafeSnapshot) (limit : ℕ)
    (h : s.runtime.state = SafeState.closed)
    (hl : s.settings.pinAttemptsLimit = some limit) :
    (reduce env s SafeEvent.wrongPin).2 =
      if limit ≤ s.runtime.attemptsMade + 1 then [SafeEvent.explode] else [] := by
  simp only [reduce]
  rw [if_neg (by simp [h]), hl]
  dsimp only
  split <;> rfl

lemma afterWrong_spec (env : Env) (s : SafeSnapshot)
    (h : s.runtime.state = SafeState.closed) (k : ℕ) :
    (afterWrong env s k).runtime.state = SafeState.closed ∧
      (afterWrong env s k).runtime.attemptsMade = s.runtime.attemptsMade + k ∧
      (afterWrong env s k).settings = s.settings := by
  induction k with
  | zero => exact ⟨h, rfl, rfl⟩
  | succ k ih =>
    obtain ⟨h1, h2, h3⟩ := ih
    have hstep := reduce_wrongPin_fst env (afterWrong env s k) h1
    have hsucc : afterWrong env s (k + 1) =
        (reduce env (afterWrong env s k) SafeEvent.wrongPin).1 := rfl
    rw [hsucc, hstep]
    exact ⟨h1, by simp [h2]; omega, h3⟩

/-- C4: starting from a closed snapshot with `pinAttemptsLimit = N` and no
attempts made, dispatching `wrongPin` repeatedly keeps the snapshot closed and
increments `attemptsMade` by one each time; each of the first `N - 1`
dispatches emits no events, and exactly the `N`-th dispatch emits `explode`. -/
theorem c4_wrongPin_explodes_on_nth (env : Env) (s : SafeSnapshot) (N : ℕ)
    (hState : s.runtime.state = SafeState.closed)
    (hLimit : s.settings.pinAttemptsLimit = some N)
    (hAtt : s.runtime.attemptsMade = 0) (hN : 1 ≤ N) :
    (∀ k, k ≤ N → (afterWrong env s k).runtime.state = SafeState.closed ∧
      (afterWrong env s k).runtime.attemptsMade = k) ∧
    (∀ k, k + 1 < N → (reduce env (afterWrong env s k) SafeEvent.wrongPin).2 = []) ∧
    (reduce env (afterWrong env s (N - 1)) SafeEvent.wrongPin).2 = [SafeEvent.explode] := by
  refine ⟨?_, ?_, ?_⟩
  · intro k _
    obtain ⟨h1, h2, _⟩ := afterWrong_spec env s hState k
    exact ⟨h1, by rw [h2, hAtt, Nat.zero_add]⟩
  · intro k hk
    obtain ⟨h1, h2, h3⟩ := afterWrong_spec env s hState k
    rw [reduce_wrongPin_snd env _ N h1 (by rw [h3, hLimit])]
    rw [if_neg (by omega)]
  · obtain ⟨h1, h2, h3⟩ := afterWrong_spec env s hState (N - 1)
    rw [reduce_wrongPin_snd env _ N h1 (by rw [h3, hLimit])]
    rw [if_pos (by omega)]

/-- Concrete instantiation of C4 with a limit of 2: the first `wrongPin`
emits nothing and the second emits `explode`. -/
theorem c4_witness :
    (∀ k, k ≤ 2 → (afterWrong { random := 0, freshId := "w" } limitedInput k).runtime.state =
        SafeState.closed ∧
      (afterWrong { random := 0, freshId := "w" } limitedInput k).runtime.attemptsMade = k) ∧
    (∀ k, k + 1 < 2 →
      (reduce { random := 0, freshId := "w" } (afterWrong { random := 0, freshId := "w" } limitedInput k)
        SafeEvent.wrongPin).2 = []) ∧
    (reduce { random := 0, freshId := "w" } (afterWrong { random := 0, freshId := "w" } limitedInput (2 - 1))
      SafeEvent.wrongPin).2 = [SafeEvent.explode] :=
  c4_wrongPin_explodes_on_nth { random := 0, freshId := "w" } limitedInput 2 rfl rfl rfl
    (by decide)

/-- C5: closing an open safe at time `T` stores the given `pinHash`, sets
`closedAt = T` and `attemptsMade = 0`, emits nothing, and arms
`destructAt = T + M*60000` exactly when `autodestructMinutes = M` is set
(leaving it absent otherwise); on the resulting closed snapshot every
`tick(now)` returns the snapshot unchanged and emits `explode` if and only if
`now ≥ T + M*60000`. -/
theorem c5_close_arms_timer_and_tick_fires (env tickEnv : Env) (s : SafeSnapshot)
    (p : String) (T : ℤ) (h : s.runtime.state = SafeState.opened) :
    (reduce env s (SafeEvent.close p T)).2 = [] ∧
    (reduce env s (SafeEvent.close p T)).1.runtime.state = SafeState.closed ∧
    (reduce env s (SafeEvent.close p T)).1.runtime.pinHash = some p ∧
    (reduce env s (SafeEvent.close p T)).1.runtime.closedAt = some T ∧
    (reduce env s (SafeEvent.close p T)).1.runtime.attemptsMade = 0 ∧
    (s.settings.autodestructMinutes = none →
      (reduce env s (SafeEvent.close p T)).1.runtime.destructAt = none) ∧
    (∀ M, s.settings.autodestructMinutes = some M →
      (reduce env s (SafeEvent.close p T)).1.runtime.destructAt =
        some (T + (M : ℤ) * 60 * 1000) ∧
      ∀ now, reduce tickEnv (reduce env s (SafeEvent.close p T)).1 (SafeEvent.tick now) =
        ((reduce env s (SafeEvent.close p T)).1,
          if T + (M : ℤ) * 60 * 1000 ≤ now then [SafeEvent.explode] else [])) := by
  have hclose : (reduce env s (SafeEvent.close p T)).1 =
      { s with
        runtime :=
          { state := SafeState.closed
            pinHash := some p
            attemptsMade := 0
            closedAt := some T
            destructAt :=
              match s.settings.autodestructMinutes with
              | some minutes => some (T + (minutes : ℤ) * 60 * 1000)
              | none => none
            explosionResult := none } } := by
    simp [reduce, h]
  refine ⟨by simp [reduce, h], by rw [hclose], by rw [hclose], by rw [hclose],
    by rw [hclose], ?_, ?_⟩
  · intro hm
    rw [hclose]
    simp [hm]
  · intro M hm
    refine ⟨by rw [hclose]; simp [hm], ?_⟩
    intro now
    rw [hclose]
    by_cases hle : T + (M : ℤ) * 60 * 1000 ≤ now
    · rw [if_pos hle]
      simp [reduce, hm, hle]
    · rw [if_neg hle]
      simp [reduce, hm, hle]

/-- Concrete instantiation of C5 (spec scenario C): closing with a one-minute
timer at time 0 arms `destructAt = 60000`; `tick(59999)` is a no-op and
`tick(60000)` emits `explode`. -/
theorem c5_witness :
    (reduce { random := 0, freshId := "w" } timedOpenInput (SafeEvent.close "h" 0)).1.runtime.destructAt =
      some 60000 ∧
    reduce { random := 0, freshId := "w" }
        (reduce { random := 0, freshId := "w" } timedOpenInput (SafeEvent.close "h" 0)).1
        (SafeEvent.tick 59999) =
      ((reduce { random := 0, freshId := "w" } timedOpenInput (SafeEvent.close "h" 0)).1, []) ∧
    reduce { random := 0, freshId := "w" }
        (reduce { random := 0, freshId := "w" } timedOpenInput (SafeEvent.close "h" 0)).1
        (SafeEvent.tick 60000) =
      ((reduce { random := 0, freshId := "w" } timedOpenInput (SafeEvent.close "h" 0)).1,
        [SafeEvent.explode]) := by
  have h := c5_close_arms_timer_and_tick_fires { random := 0, freshId := "w" }
    { random := 0, freshId := "w" } timedOpenInput "h" 0 rfl
  obtain ⟨-, -, -, -, -, -, harm⟩ := h
  obtain ⟨hd, htick⟩ := harm 1 rfl
  refine ⟨by rw [hd]; norm_num, ?_, ?_⟩
  · have := htick 59999
    rw [if_neg (by norm_num)] at this
    simpa using this
  · have := htick 60000
    rw [if_pos (by norm_num)] at this
    simpa using this

lemma decode_encode_lang (l : Lang) : decodeLang (encodeLang l) = some l := by
  cases l <;> rfl

lemma decode_encode_state (st : SafeState) : decodeState (encodeState st) = some st := by
  cases st <;> rfl

lemma decode_encode_explosionResult (r : ExplosionResult) :
    decodeExplosionResult (encodeExplosionResult r) = some r := by
  cases r <;> rfl

lemma decode_encode_content (c : SafeContent) :
    decodeContent (encodeContent c) = some c := by
  rcases c with ⟨t, img⟩
  cases img <;> rfl

lemma decode_encode_settings (st : SafeSettings) :
    decodeSettings (encodeSettings st) = some st := by
  rcases st with ⟨lang, en, ch, am, pl⟩
  cases lang <;> rcases ch with _ | c <;> rcases am with _ | a <;> rcases pl with _ | p <;>
    simp [encodeSettings, decodeSettings, Json.get, lookupField, optField, getOptNat,
      decode_encode_lang]

lemma decode_encode_runtime (r : SafeRuntime) :
    decodeRuntime (encodeRuntime r) = some r := by
  rcases r with ⟨st, ph, am, ca, da, er⟩
  cases st <;> rcases ph with _ | p <;> rcases ca with _ | c <;> rcases da with _ | d <;>
      rcases er with _ | er <;>
    simp [encodeRuntime, decodeRuntime, Json.get, lookupField, optField, getOptStr,
      getOptInt, decode_encode_explosionResult, decode_encode_state]

lemma decode_encode_snapshot (s : SafeSnapshot) :
    decodeSnapshot (encodeSnapshot s) = some s := by
  rcases s with ⟨id, c, st, r⟩
  simp [encodeSnapshot, decodeSnapshot, Json.get, lookupField,
    decode_encode_content, decode_encode_settings, decode_encode_runtime]

/-- C9: persistence is a lossless round-trip — loading the payload written by
`saveSnapshot` returns exactly the saved snapshot, for every snapshot of the
current schema version. -/
theorem c9_save_load_roundtrip (s : SafeSnapshot) :
    loadSnapshot (some (saveSnapshot s)) = some s := by
  simp [loadSnapshot, saveSnapshot, Json.get, lookupField, migrateSteps,
    SCHEMA_VERSION, decode_encode_snapshot]

lemma dispatch_eq_of_emits_nil (env : Env) (s : SafeSnapshot) (e : SafeEvent)
    (h : (reduce env s e).2 = []) :
    dispatch env s e = some (reduce env s e).1 := by
  rw [dispatch, drain_succ, h, List.nil_append, drain_nil]

lemma drain_explode (env : Env) (f : ℕ) (s1 : SafeSnapshot) :
    drain env (f + 2) s1 [SafeEvent.explode] =
      if s1.settings.survivalEnabled = true ∧ env.random < 1 / 10 then
        some (reduce env s1 SafeEvent.survive).1
      else some (spawnSafe env.freshId) := by
  rw [drain_succ]
  by_cases hc : s1.settings.survivalEnabled = true ∧ env.random < 1 / 10
  · rw [if_pos hc]
    have h2 : reduce env s1 SafeEvent.explode = (s1, [SafeEvent.survive]) := by
      simp only [reduce, if_pos hc]
    rw [h2]
    simp only [List.nil_append]
    rw [drain_succ, reduce_survive_emits, List.nil_append, drain_nil]
  · rw [if_neg hc]
    have h2 : reduce env s1 SafeEvent.explode = (spawnSafe env.freshId, []) := by
      simp only [reduce, if_neg hc]
    rw [h2]
    simp only [List.nil_append]
    exact drain_nil env _ _

lemma reduce_noop_wrongPin (env : Env) (s : SafeSnapshot)
    (h : s.runtime.state ≠ SafeState.closed) :
    reduce env s SafeEvent.wrongPin = (s, []) := by
  simp [reduce, h]

lemma reduce_tick_fst (env : Env) (s : SafeSnapshot) (now : ℤ) :
    (reduce env s (SafeEvent.tick now)).1 = s := by
  simp only [reduce]
  split
  · rfl
  · split
    · split <;> rfl
    · rfl

lemma reduce_wrongPin_snd_none (env : Env) (s : SafeSnapshot)
    (h : s.runtime.state = SafeState.closed)
    (hl : s.settings.pinAttemptsLimit = none) :
    (reduce env s SafeEvent.wrongPin).2 = [] := by
  simp only [reduce]
  rw [if_neg (by simp [h]), hl]

lemma reduce_tick_snd (env : Env) (s : SafeSnapshot) (now : ℤ) (d : ℤ)
    (h : s.runtime.state = SafeState.closed)
    (hd : s.runtime.destructAt = some d) :
    (reduce env s (SafeEvent.tick now)).2 =
      if d ≤ now then [SafeEvent.explode] else [] := by
  simp only [reduce]
  rw [if_neg (by simp [h]), hd]
  dsimp only
  split <;> rfl

lemma reduce_tick_snd_none (env : Env) (s : SafeSnapshot) (now : ℤ)
    (hd : s.runtime.destructAt = none) :
    (reduce env s (SafeEvent.tick now)).2 = [] := by
  simp only [reduce]
  split
  · rfl
  · rw [hd]

lemma reduce_survive_fst_closed (env : Env) (s : SafeSnapshot)
    (h : s.runtime.state = SafeState.closed) :
    (reduce env s SafeEvent.survive).1 =
      { s with runtime := { s.runtime with attemptsMade := 0, destructAt := none } } := by
  simp [reduce, h]

lemma reduce_survive_fst_not_closed (env : Env) (s : SafeSnapshot)
    (h : s.runtime.state ≠ SafeState.closed) :
    (reduce env s SafeEvent.survive).1 = s := by
  simp [reduce, h]

lemma inv_spawnSafe (id : String) : SafeInv (spawnSafe id) := by
  constructor
  · intro N hN
    simp [spawnSafe] at hN
  · intro hcl
    simp [spawnSafe] at hcl

lemma inv_survive_target (env : Env) (s : SafeSnapshot) (hSet : SettingsOK s.settings)
    (h : s.runtime.state = SafeState.closed) :
    SafeInv (reduce env s SafeEvent.survive).1 := by
  rw [reduce_survive_fst_closed env s h]
  exact ⟨hSet, fun _ N hN => hSet N hN⟩

lemma inv_dispatch (env : Env) (s s' : SafeSnapshot) (e : SafeEvent)
    (hInv : SafeInv s) (h : dispatch env s e = some s') : SafeInv s' := by
  obtain ⟨hSet, hCl⟩ := hInv
  cases e with
  | openEvent =>
    rw [dispatch_eq_of_emits_nil env s _ (reduce_openEvent_emits env s)] at h
    obtain rfl := Option.some.inj h
    by_cases hs : s.runtime.state = SafeState.closed
    · have hfst : (reduce env s SafeEvent.openEvent).1 =
          { s with
            runtime :=
              { state := SafeState.opened
                pinHash := none
                attemptsMade := 0
                closedAt := none
                destructAt := none
                explosionResult := none } } := by
        simp [reduce, hs]
      rw [hfst]
      exact ⟨hSet, fun hc => absurd hc (by simp)⟩
    · have hfst : (reduce env s SafeEvent.openEvent).1 = s := by simp [reduce, hs]
      rw [hfst]
      exact ⟨hSet, hCl⟩
  | close p now =>
    rw [dispatch_eq_of_emits_nil env s _ (reduce_close_emits env s p now)] at h
    obtain rfl := Option.some.inj h
    by_cases hs : s.runtime.state = SafeState.opened
    · have hfst : (reduce env s (SafeEvent.close p now)).1 =
          { s with
            runtime :=
              { state := SafeState.closed
                pinHash := some p
                attemptsMade := 0
                closedAt := some now
                destructAt :=
                  match s.settings.autodestructMinutes with
                  | some minutes => some (now + (minutes : ℤ) * 60 * 1000)
                  | none => none
                explosionResult := none } } := by
        simp [reduce, hs]
      rw [hfst]
      exact ⟨hSet, fun _ N hN => hSet N hN⟩
    · have hfst : (reduce env s (SafeEvent.close p now)).1 = s := by simp [reduce, hs]
      rw [hfst]
      exact ⟨hSet, hCl⟩
  | wrongPin =>
    by_cases hs : s.runtime.state = SafeState.closed
    · have hfst := reduce_wrongPin_fst env s hs
      cases hl : s.settings.pinAttemptsLimit with
      | none =>
        rw [dispatch_eq_of_emits_nil env s _ (reduce_wrongPin_snd_none env s hs hl)] at h
        obtain rfl := Option.some.inj h
        rw [hfst]
        refine ⟨hSet, fun _ N hN => ?_⟩
        rw [show ({ s with
            runtime :=
              { s.runtime with attemptsMade := s.runtime.attemptsMade + 1 } } : SafeSnapshot).settings =
          s.settings from rfl, hl] at hN
        exact Option.noConfusion hN
      | some N =>
        have hsnd := reduce_wrongPin_snd env s N hs hl
        by_cases hla : N ≤ s.runtime.attemptsMade + 1
        · rw [if_pos hla] at hsnd
          have hd : dispatch env s SafeEvent.wrongPin =
              drain env 2 (reduce env s SafeEvent.wrongPin).1 [SafeEvent.explode] := by
            rw [dispatch, drain_succ, hsnd, List.nil_append]
          rw [hd, show (2 : ℕ) = 0 + 2 from rfl, drain_explode] at h
          split at h
          · obtain rfl := Option.some.inj h
            refine inv_survive_target env _ ?_ ?_
            · rw [hfst]
              exact hSet
            · rw [hfst]
              exact hs
          · obtain rfl := Option.some.inj h
            exact inv_spawnSafe _
        · rw [if_neg hla] at hsnd
          rw [dispatch_eq_of_emits_nil env s _ hsnd] at h
          obtain rfl := Option.some.inj h
          rw [hfst]
          refine ⟨hSet, fun _ M hM => ?_⟩
          rw [show ({ s with
              runtime :=
                { s.runtime with attemptsMade := s.runtime.attemptsMade + 1 } } : SafeSnapshot).settings =
            s.settings from rfl, hl] at hM
          obtain rfl := Option.some.inj hM
          show s.runtime.attemptsMade + 1 < N
          omega
    · rw [dispatch_eq_of_emits_nil env s _ (by rw [reduce_noop_wrongPin env s hs])] at h
      rw [reduce_noop_wrongPin env s hs] at h
      obtain rfl := Option.some.inj h
      exact ⟨hSet, hCl⟩
  | tick now =>
    by_cases hs : s.runtime.state = SafeState.closed
    · cases hd : s.runtime.destructAt with
      | none =>
        rw [dispatch_eq_of_emits_nil env s _ (reduce_tick_snd_none env s now hd),
          reduce_tick_fst] at h
        obtain rfl := Option.some.inj h
        exact ⟨hSet, hCl⟩
      | some d =>
        have hsnd := reduce_tick_snd env s now d hs hd
        by_cases hle : d ≤ now
        · rw [if_pos hle] at hsnd
          have hstep : dispatch env s (SafeEvent.tick now) =
              drain env 2 s [SafeEvent.explode] := by
            rw [dispatch, drain_succ, hsnd, List.nil_append, reduce_tick_fst]
          rw [hstep, show (2 : ℕ) = 0 + 2 from rfl, drain_explode] at h
          split at h
          · obtain rfl := Option.some.inj h
            exact inv_survive_target env s hSet hs
          · obtain rfl := Option.some.inj h
            exact inv_spawnSafe _
        · rw [if_neg hle] at hsnd
          rw [dispatch_eq_of_emits_nil env s _ hsnd, reduce_tick_fst] at h
          obtain rfl := Option.some.inj h
          exact ⟨hSet, hCl⟩
    · have hnoop : reduce env s (SafeEvent.tick now) = (s, []) := by simp [reduce, hs]
      rw [dispatch_eq_of_emits_nil env s _ (by rw [hnoop]), hnoop] at h
      obtain rfl := Option.some.inj h
      exact ⟨hSet, hCl⟩
  | explode =>
    have hstep : dispatch env s SafeEvent.explode = drain env (1 + 2) s [SafeEvent.explode] := rfl
    rw [hstep, drain_explode] at h
    split at h
    · obtain rfl := Option.some.inj h
      by_cases hs : s.runtime.state = SafeState.closed
      · exact inv_survive_target env s hSet hs
      · rw [reduce_survive_fst_not_closed env s hs]
        exact ⟨hSet, hCl⟩
    · obtain rfl := Option.some.inj h
      exact inv_spawnSafe _
  | survive =>
    rw [dispatch_eq_of_emits_nil env s _ (reduce_survive_emits env s)] at h
    obtain rfl := Option.some.inj h
    by_cases hs : s.runtime.state = SafeState.closed
    · exact inv_survive_target env s hSet hs
    · rw [reduce_survive_fst_not_closed env s hs]
      exact ⟨hSet, hCl⟩

lemma reachable_inv (s : SafeSnapshot) (h : Reachable s) : SafeInv s := by
  induction h with
  | spawn id => exact inv_spawnSafe id
  | step env s s' e hr hd ih => exact inv_dispatch env s s' e ih hd
  | editContent s c hr ho ih => exact ⟨ih.1, ih.2⟩
  | editSettings s st hr ho hv ih =>
    refine ⟨fun N hN => (hv.2.1 N hN).1, fun hcl => ?_⟩
    rw [show ({ s with settings := st } : SafeSnapshot).runtime.state = s.runtime.state from rfl,
      ho] at hcl
    exact SafeState.noConfusion hcl

/-- C7: in every state reachable from a freshly spawned safe by settled
dispatches (and the in-place open-state edits the UI performs), a closed
snapshot with an attempt limit `N` always satisfies `attemptsMade < N` — a
snapshot at the limit is never left standing once the dispatch queue drains. -/
theorem c7_closed_attempts_below_limit (s : SafeSnapshot) (N : ℕ)
    (h : Reachable s) (hc : s.runtime.state = SafeState.closed)
    (hl : s.settings.pinAttemptsLimit = some N) :
    s.runtime.attemptsMade < N :=
  (reachable_inv s h).2 hc N hl

/-- Concrete instantiation of C7: spawn, set an attempt limit of 2, close —
the reached closed snapshot has strictly fewer than 2 attempts made. -/
theorem c7_witness : c7WitnessSnapshot.runtime.attemptsMade < 2 := by
  have hvalid : ValidSettings c7WitnessSettings := by
    refine ⟨?_, ?_, ?_⟩ <;> intro n hn
    · exact Option.noConfusion hn
    · cases Option.some.inj hn
      exact ⟨by norm_num, by norm_num⟩
    · exact Option.noConfusion hn
  have hreach : Reachable c7WitnessSnapshot :=
    Reachable.step { random := 0, freshId := "x" }
      { spawnSafe "w" with settings := c7WitnessSettings } c7WitnessSnapshot
      (SafeEvent.close "h" 0)
      (Reachable.editSettings (spawnSafe "w") c7WitnessSettings (Reachable.spawn "w") rfl hvalid)
      rfl
  exact c7_closed_attempts_below_limit c7WitnessSnapshot 2 hreach rfl rfl
